import Mathlib

/-!
Verification of the rag-llm-frontend chat client (`app.py`).

The development shallowly embeds the three core functions of the source —
`fetch_models`, `stream_chat` and `respond` — together with the pieces of the
Python runtime they rely on: a JSON value type and a parser modelling
`json.loads`, Python truthiness, and the exception behaviour of attribute
access and indexing on JSON-derived values.  The network is modelled as an
explicit parameter describing the backend's observable behaviour (response
status, body, stream lines, and whether an exception interrupts the stream).
-/

/-- A JSON value as produced by Python's `json.loads`.  Numbers keep their
sign, integer part, fraction digits and exponent so that Python truthiness
(`0`, `0.0`, `-0.0e5` are falsy) is decidable without floating point.
`special` covers the non-standard `NaN` / `Infinity` / `-Infinity` literals
that `json.loads` accepts by default. -/
inductive Json where
  | null
  | bool (b : Bool)
  | num (neg : Bool) (ip : Nat) (frac : List Char) (ex : Int)
  | special (neg : Bool) (isNaN : Bool)
  | str (s : String)
  | arr (elts : List Json)
  | obj (kvs : List (String × Json))

/-- Insertion into an object, with Python `dict` semantics: a duplicate key
overwrites the value but keeps the key's original position. -/
def objInsert : List (String × Json) → String → Json → List (String × Json)
  | [], k, v => [(k, v)]
  | (k', v') :: rest, k, v =>
    if k' = k then (k', v) :: rest else (k', v') :: objInsert rest k v

/-- Key lookup in an object (`dict.get` / `dict[k]` on a present key). -/
def objGet (kvs : List (String × Json)) (k : String) : Option Json :=
  (kvs.find? (fun p => p.1 == k)).map Prod.snd

/-- Python truthiness of a JSON-derived value (`if token:`). -/
def truthy : Json → Bool
  | Json.null => false
  | Json.bool b => b
  | Json.num _ ip frac _ => !(ip == 0 && frac.all (fun c => c == '0'))
  | Json.special _ _ => true
  | Json.str s => !(s == (""))
  | Json.arr l => !l.isEmpty
  | Json.obj kvs => !kvs.isEmpty

/-- The inter-token whitespace accepted by `json.loads`. -/
def jsonWs (c : Char) : Bool :=
  c = ' ' || c = '\t' || c = '\n' || c = '\r'

/-- Whitespace stripped by Python's `str.strip()` (ASCII part). -/
def pyStripWs (c : Char) : Bool :=
  jsonWs c || c = '\x0B' || c = '\x0C'

def skipWs (cs : List Char) : List Char := cs.dropWhile jsonWs

/-- `s.startswith(pre)`. -/
def strStartsWith (s pre : String) : Bool := pre.data.isPrefixOf s.data

/-- `s[n:]` (by code points, as in Python). -/
def strDrop (s : String) (n : Nat) : String := String.mk (s.data.drop n)

/-- `s.strip()`. -/
def pyStrip (s : String) : String :=
  String.mk (((s.data.dropWhile pyStripWs).reverse.dropWhile pyStripWs).reverse)

def strContainsAux (needle : List Char) : List Char → Bool
  | [] => needle.isEmpty
  | c :: rest => needle.isPrefixOf (c :: rest) || strContainsAux needle rest

/-- Python's substring test `sub in s`. -/
def strContains (s sub : String) : Bool := strContainsAux sub.data s.data

def hexVal (c : Char) : Option Nat :=
  if '0' ≤ c ∧ c ≤ '9' then some (c.toNat - 48)
  else if 'a' ≤ c ∧ c ≤ 'f' then some (c.toNat - 87)
  else if 'A' ≤ c ∧ c ≤ 'F' then some (c.toNat - 55)
  else none

def parseHex4 : List Char → Option (Nat × List Char)
  | a :: b :: c :: d :: rest =>
    match hexVal a, hexVal b, hexVal c, hexVal d with
    | some x, some y, some z, some w => some (((x * 16 + y) * 16 + z) * 16 + w, rest)
    | _, _, _, _ => none
  | _ => none

def simpleEscape (c : Char) : Option Char :=
  if c = '"' then some '"'
  else if c = '\\' then some '\\'
  else if c = '/' then some '/'
  else if c = 'b' then some '\x08'
  else if c = 'f' then some '\x0C'
  else if c = 'n' then some '\n'
  else if c = 'r' then some '\r'
  else if c = 't' then some '\t'
  else none

/-- Body of a JSON string literal, after the opening quote.  Mirrors the
strict-mode scanner of `json.loads`: raw control characters are rejected,
the eight simple escapes and `\uXXXX` (with surrogate pairs combined) are
accepted.  (Lone surrogates, which CPython tolerates, are rejected here
since a Lean `Char` cannot represent them; no claim depends on them.) -/
def parseStringBody : Nat → List Char → List Char → Option (String × List Char)
  | 0, _, _ => none
  | _ + 1, [], _ => none
  | f + 1, c :: rest, acc =>
    if c = '"' then some (String.mk acc.reverse, rest)
    else if c = '\\' then
      match rest with
      | [] => none
      | e :: rest2 =>
        if e = 'u' then
          match parseHex4 rest2 with
          | none => none
          | some (n, rest3) =>
            if 0xD800 ≤ n ∧ n ≤ 0xDBFF then
              match rest3 with
              | '\\' :: 'u' :: rest4 =>
                match parseHex4 rest4 with
                | none => none
                | some (n2, rest5) =>
                  if 0xDC00 ≤ n2 ∧ n2 ≤ 0xDFFF then
                    parseStringBody f rest5
                      (Char.ofNat (0x10000 + (n - 0xD800) * 0x400 + (n2 - 0xDC00)) :: acc)
                  else none
              | _ => none
            else if 0xDC00 ≤ n ∧ n ≤ 0xDFFF then none
            else parseStringBody f rest3 (Char.ofNat n :: acc)
        else
          match simpleEscape e with
          | some ch => parseStringBody f rest2 (ch :: acc)
          | none => none
    else if c.toNat < 32 then none
    else parseStringBody f rest (c :: acc)

def natOfDigits (ds : List Char) : Nat :=
  ds.foldl (fun n c => n * 10 + (c.toNat - 48)) 0

/-- Integer part of a JSON number: `0` or a nonzero digit followed by digits. -/
def parseIntPart : List Char → Option (Nat × List Char)
  | '0' :: rest => some (0, rest)
  | c :: rest =>
    if c.isDigit then
      some (natOfDigits ((c :: rest).takeWhile Char.isDigit),
            (c :: rest).dropWhile Char.isDigit)
    else none
  | [] => none

def parseFracPart : List Char → Option (List Char × List Char)
  | '.' :: r =>
    if (r.takeWhile Char.isDigit).isEmpty then none
    else some (r.takeWhile Char.isDigit, r.dropWhile Char.isDigit)
  | cs => some ([], cs)

def expDigits (cs : List Char) (neg : Bool) : Option (Int × List Char) :=
  if (cs.takeWhile Char.isDigit).isEmpty then none
  else
    some ((if neg then -(natOfDigits (cs.takeWhile Char.isDigit) : Int)
           else (natOfDigits (cs.takeWhile Char.isDigit) : Int)),
          cs.dropWhile Char.isDigit)

def parseExpPart : List Char → Option (Int × List Char)
  | c :: r =>
    if c = 'e' ∨ c = 'E' then
      match r with
      | '+' :: r2 => expDigits r2 false
      | '-' :: r2 => expDigits r2 true
      | r2 => expDigits r2 false
    else some (0, c :: r)
  | [] => some (0, [])

def parseNumber (neg : Bool) (cs : List Char) : Option (Json × List Char) :=
  match parseIntPart cs with
  | none => none
  | some (ip, r1) =>
    match parseFracPart r1 with
    | none => none
    | some (frac, r2) =>
      match parseExpPart r2 with
      | none => none
      | some (ex, r3) => some (Json.num neg ip frac ex, r3)

/-- Parsing mode: a single value, or the element/member loop of an array or
object already opened. -/
inductive PMode where
  | val
  | arrLoop (first : Bool) (acc : List Json)
  | objLoop (first : Bool) (acc : List (String × Json))

/-- Fuel-indexed core of `json.loads`.  Each recursive call decreases the
fuel; `2 * length + 4` fuel is always sufficient since at most two calls
happen between consuming two input characters. -/
def parseCore : Nat → PMode → List Char → Option (Json × List Char)
  | 0, _, _ => none
  | f + 1, PMode.val, cs =>
    match cs with
    | 'n' :: 'u' :: 'l' :: 'l' :: r => some (Json.null, r)
    | 't' :: 'r' :: 'u' :: 'e' :: r => some (Json.bool true, r)
    | 'f' :: 'a' :: 'l' :: 's' :: 'e' :: r => some (Json.bool false, r)
    | 'N' :: 'a' :: 'N' :: r => some (Json.special false true, r)
    | 'I' :: 'n' :: 'f' :: 'i' :: 'n' :: 'i' :: 't' :: 'y' :: r =>
      some (Json.special false false, r)
    | '-' :: 'I' :: 'n' :: 'f' :: 'i' :: 'n' :: 'i' :: 't' :: 'y' :: r =>
      some (Json.special true false, r)
    | '"' :: r =>
      match parseStringBody f r [] with
      | some (s, r2) => some (Json.str s, r2)
      | none => none
    | '[' :: r => parseCore f (PMode.arrLoop true []) (skipWs r)
    | '{' :: r => parseCore f (PMode.objLoop true []) (skipWs r)
    | '-' :: r => parseNumber true r
    | c :: r => if c.isDigit then parseNumber false (c :: r) else none
    | [] => none
  | f + 1, PMode.arrLoop first acc, cs =>
    match cs with
    | ']' :: r => if first then some (Json.arr [], r) else none
    | _ =>
      match parseCore f PMode.val cs with
      | none => none
      | some (v, r) =>
        match skipWs r with
        | ',' :: r2 => parseCore f (PMode.arrLoop false (v :: acc)) (skipWs r2)
        | ']' :: r2 => some (Json.arr (v :: acc).reverse, r2)
        | _ => none
  | f + 1, PMode.objLoop first acc, cs =>
    match cs with
    | '}' :: r => if first then some (Json.obj [], r) else none
    | '"' :: r =>
      match parseStringBody f r [] with
      | none => none
      | some (k, r2) =>
        match skipWs r2 with
        | ':' :: r3 =>
          match parseCore f PMode.val (skipWs r3) with
          | none => none
          | some (v, r4) =>
            match skipWs r4 with
            | ',' :: r5 => parseCore f (PMode.objLoop false (objInsert acc k v)) (skipWs r5)
            | '}' :: r5 => some (Json.obj (objInsert acc k v), r5)
            | _ => none
        | _ => none
    | _ => none

/-- `json.loads`: parse a complete string as one JSON value, allowing
surrounding whitespace and rejecting trailing data.  `none` models a raised
`json.JSONDecodeError`. -/
def parseJson (s : String) : Option Json :=
  match parseCore (2 * s.data.length + 4) PMode.val (skipWs s.data) with
  | some (v, rest) => if (skipWs rest).isEmpty then some v else none
  | none => none

/-- A chat message: the `{"role": ..., "content": ...}` dictionaries that
`stream_chat` and `respond` build. -/
structure Message where
  role : String
  content : String
deriving DecidableEq

/-- The JSON body of the completion request (`payload` in `stream_chat`). -/
structure Payload where
  model : String
  messages : List Message
  stream : Bool
deriving DecidableEq

/-- Observable behaviour of the chat-completions backend for one request:
either `raise_for_status` raises with the given status (`httpError`), or the
body is delivered as the given lines, with `thenExn` recording whether an
exception (connection drop, etc.) interrupts the iteration after the last
delivered line. -/
inductive NetResult where
  | httpError (status : Nat) (text : String)
  | stream (lines : List String) (thenExn : Bool)

def warnMsg : String :=
  "⚠️ **Error:** Please select a model from the dropdown menu first."

def genericMsg : String :=
  "⚠️ **Error:** An unexpected error occurred. Please check the logs."

/-- The error item the `except httpx.HTTPStatusError` handler intends to
yield (line 117 of `app.py`).  That yield is unreachable: the log call on
the line before evaluates `e.response.text` on a streaming response whose
body was never read, which raises `httpx.ResponseNotRead` out of the
handler (see `stream_chat_run`). -/
def httpErrMsg (status : Nat) : String :=
  "⚠️ **Error:** HTTP error occurred: " ++ toString status ++
    ". Please check the logs for details."

def dataHeader : String := "data: "

def doneStr : String := "[DONE]"

/-- Python falsiness of the `model_choice` argument (`if not model_choice:`):
`None` and the empty string are both falsy. -/
def falsyModel : Option String → Bool
  | none => true
  | some s => s == ("")

/-- Result of evaluating `chunk.get("choices", [{}])[0].get("delta", {}).get("content")`
on a parsed chunk, with Python's exception behaviour:
`tok t` is a normal result (`t = none` models Python `None`);
`skip` is an `IndexError` or `KeyError`, caught by the inner `except`;
`abort` is an `AttributeError` or `TypeError`, which the inner `except`
does not catch, so it escapes to the outer `except Exception`. -/
inductive Extracted where
  | tok (t : Option Json)
  | skip
  | abort

def extractToken (chunk : Json) : Extracted :=
  match chunk with
  | Json.obj kvs =>
    match (objGet kvs ("choices")).getD (Json.arr [Json.obj []]) with
    | Json.arr [] => Extracted.skip
    | Json.arr (e :: _) =>
      match e with
      | Json.obj kvs2 =>
        match (objGet kvs2 ("delta")).getD (Json.obj []) with
        | Json.obj kvs3 => Extracted.tok (objGet kvs3 ("content"))
        | _ => Extracted.abort
      | _ => Extracted.abort
    | Json.obj _ => Extracted.skip
    | Json.str s =>
      match s.data with
      | [] => Extracted.skip
      | _ :: _ => Extracted.abort
    | _ => Extracted.abort
  | _ => Extracted.abort

/-- Outcome of the `for raw_chunk in r.iter_lines():` loop: the tokens
yielded so far, tagged by how the loop stopped — `done` via the `[DONE]`
`break`, `ended` by exhausting the lines, `aborted` by an uncaught
exception escaping the loop. -/
inductive LinesOutcome where
  | done (toks : List Json)
  | ended (toks : List Json)
  | aborted (toks : List Json)

def consOutcome (v : Json) : LinesOutcome → LinesOutcome
  | LinesOutcome.done ts => LinesOutcome.done (v :: ts)
  | LinesOutcome.ended ts => LinesOutcome.ended (v :: ts)
  | LinesOutcome.aborted ts => LinesOutcome.aborted (v :: ts)

/-- The line-processing loop of `stream_chat` (lines 98-113 of `app.py`). -/
def processLines : List String → LinesOutcome
  | [] => LinesOutcome.ended []
  | line :: rest =>
    if strStartsWith line dataHeader then
      if pyStrip (strDrop line 6) = doneStr then LinesOutcome.done []
      else
        match parseJson (strDrop line 6) with
        | none => processLines rest
        | some chunk =>
          match extractToken chunk with
          | Extracted.skip => processLines rest
          | Extracted.abort => LinesOutcome.aborted []
          | Extracted.tok none => processLines rest
          | Extracted.tok (some v) =>
            if truthy v then consOutcome v (processLines rest)
            else processLines rest
    else processLines rest

/-- Full observable outcome of one `stream_chat` generator run: the payload
actually POSTed (`none` when no network call is made), the values the
generator yields, and whether the generator terminates by raising an
exception to its caller instead of returning. -/
structure StreamRun where
  request : Option Payload
  yields : List Json
  raises : Bool

/-- `stream_chat(question, chat_history, model_choice)` run against a backend
behaving as `net`.  All yielded values are strings in the source's intended
use; tokens keep their `Json` type since Python would yield any truthy
`delta.get("content")` value unchanged.

On a non-2xx status (`NetResult.httpError`), `raise_for_status` raises
`httpx.HTTPStatusError` before any line is read; its handler first builds
`error_text` from the status code, but the log call on line 116 then
evaluates `e.response.text` inside an f-string — on a streaming response
whose body was never read, `httpx` raises `ResponseNotRead`.  An exception
raised inside an `except` clause is not caught by the sibling
`except Exception`, so it escapes the generator: nothing is yielded and the
caller sees the exception (`raises := true`).  All exceptions on the other
paths are caught inside the `try`, so those runs return normally. -/
def stream_chat_run (question : String) (chat_history : List Message)
    (model_choice : Option String) (net : NetResult) : StreamRun :=
  if falsyModel model_choice then ⟨none, [Json.str warnMsg], false⟩
  else
    let payload : Payload :=
      { model := model_choice.getD ("")
        messages := chat_history ++ [Message.mk ("user") question]
        stream := true }
    match net with
    | NetResult.httpError _ _ => ⟨some payload, [], true⟩
    | NetResult.stream lines thenExn =>
      match processLines lines with
      | LinesOutcome.done toks => ⟨some payload, toks, false⟩
      | LinesOutcome.aborted toks => ⟨some payload, toks ++ [Json.str genericMsg], false⟩
      | LinesOutcome.ended toks =>
        ⟨some payload, (if thenExn then toks ++ [Json.str genericMsg] else toks), false⟩

/-- The request/yield view of a `stream_chat` run (the two observables the
other claims are stated over). -/
def stream_chat (question : String) (chat_history : List Message)
    (model_choice : Option String) (net : NetResult) :
    Option Payload × List Json :=
  ((stream_chat_run question chat_history model_choice net).request,
   (stream_chat_run question chat_history model_choice net).yields)

/-- Concatenation of a list of token strings (`buffer` accumulation). -/
def concatTokens : List String → String
  | [] => ""
  | t :: ts => t ++ concatTokens ts

/-- The `for token in bot_stream:` loop of `respond`: each string token
extends the buffer and yields a snapshot of the mutated conversation; a
non-string token would make `buffer += token` raise `TypeError`, ending the
generator with no further yields. -/
def respondLoop (orig : List Message) (message : String) (buffer : String) :
    List Json → List (List Message × String)
  | [] => []
  | Json.str s :: rest =>
    (orig ++ [Message.mk ("user") message, Message.mk ("assistant") (buffer ++ s)], ("")) ::
      respondLoop orig message (buffer ++ s) rest
  | _ :: _ => []

/-- `respond(message, chat_history, model_choice)` run against a backend
behaving as `net`.  Returns the POSTed payload (if any) and the list of
`(conversation snapshot, textbox value)` pairs the generator yields.

Note the aliasing in the source: `stream_chat` is called with the very list
object that `respond` then appends the user message and the empty assistant
message to, and — being a generator — `stream_chat`'s body only runs once
the `for token in bot_stream:` loop first pulls from it, which is after
both appends.  The request therefore sees the already-extended history,
which this embedding makes explicit by passing `hist2` to `stream_chat`. -/
def respond (message : String) (chat_history : List Message)
    (model_choice : Option String) (net : NetResult) :
    Option Payload × List (List Message × String) :=
  let hist2 := chat_history ++ [Message.mk ("user") message, Message.mk ("assistant") ("")]
  let res := stream_chat message hist2 model_choice net
  (res.1, (hist2, ("")) :: respondLoop chat_history message ("") res.2)

/-- Observable behaviour of the model-listing backend for one request:
the GET either raises a network error, or returns a response with a status
code and a body. -/
inductive FetchNet where
  | netError
  | response (status : Nat) (body : String)

/-- `httpx` success statuses: `raise_for_status()` raises outside 2xx. -/
def statusOk (status : Nat) : Bool := 200 ≤ status && status < 300

/-- One step of the comprehension `[model["id"] for model in ... if "id" in model]`:
`ok (some v)` collects `v`, `ok none` skips the entry, `error` models an
uncaught `TypeError` (`"id" in model` on a non-container, or `model["id"]`
on a string or list). -/
def modelEntry : Json → Except Unit (Option Json)
  | Json.obj kvs => Except.ok (objGet kvs ("id"))
  | Json.str s => if strContains s ("id") then Except.error () else Except.ok none
  | Json.arr l =>
    if l.any (fun x => match x with | Json.str s => s == ("id") | _ => false) then
      Except.error ()
    else Except.ok none
  | _ => Except.error ()

def collectIds : List Json → Except Unit (List Json)
  | [] => Except.ok []
  | m :: rest =>
    match modelEntry m with
    | Except.error _ => Except.error ()
    | Except.ok none => collectIds rest
    | Except.ok (some v) =>
      match collectIds rest with
      | Except.error _ => Except.error ()
      | Except.ok ids => Except.ok (v :: ids)

/-- The comprehension `[model["id"] for model in data.get("data", []) if "id" in model]`
(line 49 of `app.py`), which runs outside the `try` block: `error` models an
exception propagating to the caller.  Iterating a string yields its one-
character substrings (never containing `"id"`); iterating a dict yields its
keys, and a key containing `"id"` leads to `key["id"]`, a `TypeError`. -/
def extractChoices : Json → Except Unit (List Json)
  | Json.obj kvs =>
    match (objGet kvs ("data")).getD (Json.arr []) with
    | Json.arr models => collectIds models
    | Json.str _ => Except.ok []
    | Json.obj kvs2 =>
      if (kvs2.map Prod.fst).any (fun k => strContains k ("id")) then Except.error ()
      else Except.ok []
    | _ => Except.error ()
  | _ => Except.error ()

/-- `fetch_models()` run against a backend behaving as `net`.  The first
component records whether the failure branch logged (`log.error` in the
`except` clause); the second is the returned pair, or `error` when an
exception escapes to the caller (only possible from line 49, which is
outside the `try`). -/
def fetch_models (net : FetchNet) : Bool × Except Unit (List Json × Option Json) :=
  match net with
  | FetchNet.netError => (true, Except.ok ([], none))
  | FetchNet.response status body =>
    if statusOk status then
      match parseJson body with
      | none => (true, Except.ok ([], none))
      | some data =>
        match extractChoices data with
        | Except.error _ => (false, Except.error ())
        | Except.ok choices => (false, Except.ok (choices, choices.head?))
    else (true, Except.ok ([], none))

/-- `model["id"]` for an object entry, `none` otherwise; used to state the
order-preserving extraction of identifiers. -/
def idOf : Json → Option Json
  | Json.obj kvs => objGet kvs ("id")
  | _ => none

/-- The first demo stream line of the spec:
`data: {"choices":[{"delta":{"content":"Hel"}}]}`. -/
def helLine : String := "data: \x7b\"choices\":[\x7b\"delta\":\x7b\"content\":\"Hel\"\x7d\x7d]\x7d"

/-- The second demo stream line: `data: {"choices":[{"delta":{"content":"lo"}}]}`. -/
def loLine : String := "data: \x7b\"choices\":[\x7b\"delta\":\x7b\"content\":\"lo\"\x7d\x7d]\x7d"

/-- The sentinel line `data: [DONE]`. -/
def doneLine : String := "data: [DONE]"

/-- A data line whose payload is valid JSON but not an object: `data: 42`. -/
def badLine : String := "data: 42"

/-- A well-formed discovery body: `{"data":[{"id":"m1"},{"id":"m2"}]}`. -/
def demoBody : String := "\x7b\"data\":[\x7b\"id\":\"m1\"\x7d,\x7b\"id\":\"m2\"\x7d]\x7d"

theorem falsyModel_of_ne (m : String) (hm : m ≠ ("")) : falsyModel (some m) = false := by
  simp only [falsyModel, beq_eq_false_iff_ne, ne_eq]
  exact hm

/-- Claim C6: with an absent `model_choice`, `stream_chat` makes no network
call and yields exactly the single select-a-model warning, for every
question, history and backend behaviour. -/
theorem stream_chat_absent_model (q : String) (h : List Message) (net : NetResult) :
    stream_chat q h none net = (none, [Json.str warnMsg]) := rfl

/-- Claim C10: a present-but-empty `model_choice` is falsy in Python, so
`stream_chat` behaves exactly as in the absent case: one warning item and
no network call. -/
theorem stream_chat_empty_model (q : String) (h : List Message) (net : NetResult) :
    stream_chat q h (some ("")) net = stream_chat q h none net
    ∧ stream_chat q h (some ("")) net = (none, [Json.str warnMsg]) :=
  ⟨rfl, rfl⟩

/-- Claim C1 (showing the code bug): driving a turn through `respond` with
question `"Hi"`, empty history and model `"model-a"`, the payload POSTed to
the chat-completions endpoint carries the messages
`[user "Hi", assistant "", user "Hi"]` — not `[user "Hi"]` as the claim
states — because `respond` appends the user and empty assistant messages to
the aliased history before the lazy `stream_chat` generator body runs. -/
theorem respond_payload_duplicates_history :
    (respond ("Hi") [] (some ("model-a")) (NetResult.stream [] false)).1
      = some (Payload.mk ("model-a")
          [Message.mk ("user") ("Hi"), Message.mk ("assistant") (""),
           Message.mk ("user") ("Hi")] true)
    ∧ (respond ("Hi") [] (some ("model-a")) (NetResult.stream [] false)).1
      ≠ some (Payload.mk ("model-a") [Message.mk ("user") ("Hi")] true) := by
  refine ⟨rfl, ?_⟩
  decide

/-- Claim C3: on the spec's demo stream, `stream_chat` yields exactly the
tokens `"Hel"` then `"lo"` and ends, for every question, history, nonempty
model id, and regardless of whether an exception would have followed the
stream (the `[DONE]` break precedes it). -/
theorem stream_chat_demo_tokens (q : String) (h : List Message) (m : String) (e : Bool)
    (hm : m ≠ ("")) :
    (stream_chat q h (some m) (NetResult.stream [helLine, loLine, doneLine] e)).2
      = [Json.str ("Hel"), Json.str ("lo")] := by
  have hpl : processLines [helLine, loLine, doneLine]
      = LinesOutcome.done [Json.str ("Hel"), Json.str ("lo")] := rfl
  simp [stream_chat, stream_chat_run, falsyModel_of_ne m hm, hpl]

theorem stream_chat_demo_tokens_witness :
    (("model-a") ≠ ("")) ∧
    (stream_chat ("Q") [] (some ("model-a"))
        (NetResult.stream [helLine, loLine, doneLine] false)).2
      = [Json.str ("Hel"), Json.str ("lo")] :=
  ⟨by decide, stream_chat_demo_tokens ("Q") [] ("model-a") false (by decide)⟩

/-- Claim C5: a `data: [DONE]` line ends the token sequence immediately and
successfully: processing any stream is unaffected by the lines following
the sentinel, and a stream starting at the sentinel produces no tokens and
ends via the `break`. -/
theorem processLines_done_stops (ls rest : List String) :
    processLines (ls ++ doneLine :: rest) = processLines (ls ++ [doneLine])
    ∧ processLines (doneLine :: rest) = LinesOutcome.done [] := by
  constructor
  · induction ls with
    | nil => rfl
    | cons a tl ih =>
      simp only [List.cons_append, processLines, List.append_eq]
      rw [ih]
  · rfl

/-- Claim C4 counterexample: the data line `data: 42` is well-formed JSON
whose payload lacks the expected shape, yet it is not silently skipped — it
aborts the stream.  Between the two valid demo lines, the code yields
`"Hel"` followed by the generic error item and ends, instead of the
`["Hel", "lo"]` the claim requires. -/
theorem stream_chat_nonobject_aborts :
    (stream_chat ("q") [] (some ("m")) (NetResult.stream [helLine, badLine, loLine] false)).2
      = [Json.str ("Hel"), Json.str genericMsg]
    ∧ (stream_chat ("q") [] (some ("m")) (NetResult.stream [helLine, badLine, loLine] false)).2
      ≠ [Json.str ("Hel"), Json.str ("lo")] := by
  refine ⟨rfl, ?_⟩
  intro hEq
  have h2 : genericMsg = ("lo") := by
    have := List.tail_eq_of_cons_eq hEq
    have := (List.cons.injEq _ _ _ _).mp this
    exact Json.str.inj this.1
  exact absurd h2 (by decide)

/-- Claim C4 as amended: a data line whose payload is malformed JSON is
silently skipped and the stream continues; so is a parsed payload whose
shape mismatch raises only `IndexError` or `KeyError` (empty `choices`
list, object-typed `choices`, missing `choices`/`delta`/`content` on the
default path).  But a parsed payload whose navigation raises any other
exception — a non-object payload, a `null`/boolean/number `choices`, a
non-object first choice, or a non-object `delta` — escapes the inner
handler and aborts the whole stream with a single generic error item. -/
theorem processLines_skip_or_abort :
    (∀ (line : String) (rest : List String),
        strStartsWith line dataHeader = true →
        pyStrip (strDrop line 6) ≠ doneStr →
        parseJson (strDrop line 6) = none →
        processLines (line :: rest) = processLines rest)
    ∧ (∀ (line : String) (rest : List String) (chunk : Json),
        strStartsWith line dataHeader = true →
        pyStrip (strDrop line 6) ≠ doneStr →
        parseJson (strDrop line 6) = some chunk →
        extractToken chunk = Extracted.skip →
        processLines (line :: rest) = processLines rest)
    ∧ (∀ (line : String) (rest : List String) (chunk : Json),
        strStartsWith line dataHeader = true →
        pyStrip (strDrop line 6) ≠ doneStr →
        parseJson (strDrop line 6) = some chunk →
        extractToken chunk = Extracted.abort →
        processLines (line :: rest) = LinesOutcome.aborted []) := by
  refine ⟨?_, ?_, ?_⟩ <;> intro line rest <;> intros <;> simp [processLines, *]

theorem processLines_skip_or_abort_witness :
    processLines [("data: nope"), doneLine] = processLines [doneLine]
    ∧ processLines [badLine] = LinesOutcome.aborted [] := by
  constructor
  · exact processLines_skip_or_abort.1 ("data: nope") [doneLine] (by decide) (by decide) (by rfl)
  · exact processLines_skip_or_abort.2.2 badLine [] (Json.num false 42 [] 0)
      (by decide) (by decide) (by rfl) (by rfl)

/-- Claim C7 (showing the code bug): on a non-2xx response the generator
yields no error item at all — in particular not the status-describing item
`httpErrMsg` its handler builds — and terminates by raising instead: the
handler's log call evaluates `e.response.text` on the unread streaming
response, raising `httpx.ResponseNotRead`, which escapes the `except`
clause to the caller.  The other-exception half of the claim does hold: an
unexpected exception during streaming (here, one interrupting the line
iteration) appends exactly one generic error item and the run returns
without raising. -/
theorem stream_chat_http_error_crashes :
    (stream_chat_run ("q") [] (some ("m")) (NetResult.httpError 500 ("oops"))).yields = []
    ∧ (stream_chat_run ("q") [] (some ("m")) (NetResult.httpError 500 ("oops"))).raises = true
    ∧ (stream_chat_run ("q") [] (some ("m")) (NetResult.stream [helLine] true)).yields
        = [Json.str ("Hel"), Json.str genericMsg]
    ∧ (stream_chat_run ("q") [] (some ("m")) (NetResult.stream [helLine] true)).raises
        = false :=
  ⟨rfl, rfl, rfl, rfl⟩

/-- Claim C9: every failure of the model-discovery call — the GET raising a
network error, a non-2xx status making `raise_for_status` raise, or a body
that `r.json()` cannot parse — is caught inside `fetch_models`: it logs the
failure and returns the empty list and absent default, never raising. -/
theorem fetch_models_failure (status : Nat) (body : String) :
    fetch_models FetchNet.netError = (true, Except.ok ([], none))
    ∧ (statusOk status = false →
        fetch_models (FetchNet.response status body) = (true, Except.ok ([], none)))
    ∧ (parseJson body = none →
        fetch_models (FetchNet.response status body) = (true, Except.ok ([], none))) := by
  refine ⟨rfl, ?_, ?_⟩
  · intro hst
    simp [fetch_models, hst]
  · intro hp
    by_cases hst : statusOk status <;> simp [fetch_models, hst, hp]

theorem fetch_models_failure_witness :
    fetch_models (FetchNet.response 404 ("")) = (true, Except.ok ([], none))
    ∧ fetch_models (FetchNet.response 200 ("nope")) = (true, Except.ok ([], none)) :=
  ⟨(fetch_models_failure 404 ("")).2.1 (by decide),
   (fetch_models_failure 200 ("nope")).2.2 (by rfl)⟩

theorem collectIds_of_objs (models : List Json)
    (hobjs : ∀ m ∈ models, ∃ kvs, m = Json.obj kvs) :
    collectIds models = Except.ok (models.filterMap idOf) := by
  induction models with
  | nil => rfl
  | cons m ms ih =>
    obtain ⟨kvs, rfl⟩ := hobjs m (List.mem_cons_self m ms)
    have ih' := ih (fun x hx => hobjs x (List.mem_cons_of_mem _ hx))
    cases hid : objGet kvs ("id") with
    | none => simp [collectIds, modelEntry, idOf, hid, ih', List.filterMap_cons]
    | some v => simp [collectIds, modelEntry, idOf, hid, ih', List.filterMap_cons]

/-- Claim C8: for a successful discovery response whose `data` field holds a
sequence of model objects, `fetch_models` returns exactly the `id` values of
the objects bearing one, in backend order (entries lacking an `id` are
skipped, no sorting), with the default equal to the first identifier, or
absent when none were collected. -/
theorem fetch_models_wellformed (status : Nat) (body : String)
    (kvs : List (String × Json)) (models : List Json)
    (hst : statusOk status = true)
    (hparse : parseJson body = some (Json.obj kvs))
    (hdata : objGet kvs ("data") = some (Json.arr models))
    (hobjs : ∀ m ∈ models, ∃ mk, m = Json.obj mk) :
    fetch_models (FetchNet.response status body)
      = (false, Except.ok (models.filterMap idOf, (models.filterMap idOf).head?)) := by
  simp [fetch_models, hst, hparse, extractChoices, hdata, collectIds_of_objs models hobjs]

theorem fetch_models_wellformed_witness :
    fetch_models (FetchNet.response 200 demoBody)
      = (false, Except.ok ([Json.str ("m1"), Json.str ("m2")], some (Json.str ("m1")))) := by
  have h := fetch_models_wellformed 200 demoBody
      [(("data"), Json.arr [Json.obj [(("id"), Json.str ("m1"))],
                            Json.obj [(("id"), Json.str ("m2"))]])]
      [Json.obj [(("id"), Json.str ("m1"))], Json.obj [(("id"), Json.str ("m2"))]]
      (by decide) (by rfl) (by rfl)
      (by
        intro m hm
        simp only [List.mem_cons, List.not_mem_nil, or_false] at hm
        rcases hm with rfl | rfl
        · exact ⟨_, rfl⟩
        · exact ⟨_, rfl⟩)
  simpa using h

theorem respondLoop_map (orig : List Message) (msg : String) (buffer : String)
    (toks : List String) :
    respondLoop orig msg buffer (toks.map Json.str)
      = (List.range toks.length).map (fun n =>
          (orig ++ [Message.mk ("user") msg,
                    Message.mk ("assistant") (buffer ++ concatTokens (toks.take (n + 1)))],
           (""))) := by
  induction toks generalizing buffer with
  | nil => rfl
  | cons t ts ih =>
    simp only [List.map_cons, respondLoop, List.length_cons, List.range_succ_eq_map,
      List.map_map, Function.comp_def]
    congr 1
    · simp [concatTokens, String.append_empty]
    · rw [ih]
      refine congrArg (fun f => List.map f (List.range ts.length)) (funext fun n => ?_)
      simp [List.take_succ_cons, concatTokens, String.append_assoc]

/-- Claim C2: with an initially empty conversation, `respond` first yields
the length-2 conversation `[user q, assistant ""]` (this first snapshot is
computed before the token stream is consumed: it is the same for every
backend behaviour `net`), and thereafter yields exactly once per token
received, the trailing assistant message's content being the concatenation
of the tokens received so far. -/
theorem respond_turn_yields (q : String) (mc : Option String) (net : NetResult)
    (toks : List String)
    (hitems : (stream_chat q [Message.mk ("user") q, Message.mk ("assistant") ("")]
        mc net).2 = toks.map Json.str) :
    (respond q [] mc net).2
      = ([Message.mk ("user") q, Message.mk ("assistant") ("")], ("")) ::
        (List.range toks.length).map (fun n =>
          ([Message.mk ("user") q,
            Message.mk ("assistant") (concatTokens (toks.take (n + 1)))], (""))) := by
  simp only [respond, List.nil_append, hitems, respondLoop_map]
  congr 1

theorem respond_turn_yields_witness :
    (respond ("Hi") [] (some ("model-a"))
        (NetResult.stream [helLine, loLine, doneLine] false)).2
      = ([Message.mk ("user") ("Hi"), Message.mk ("assistant") ("")], ("")) ::
        (List.range (List.length [("Hel"), ("lo")])).map (fun n =>
          ([Message.mk ("user") ("Hi"),
            Message.mk ("assistant") (concatTokens (([("Hel"), ("lo")]).take (n + 1)))],
           (""))) :=
  respond_turn_yields ("Hi") (some ("model-a"))
    (NetResult.stream [helLine, loLine, doneLine] false) [("Hel"), ("lo")] (by rfl)
